import Mathlib

/-!
Verification of the core logic of a certificate-of-deposit (CD) calculator.

The program (`cd_calculator.py`) consists of
* a pure compound-interest computation `calculate_cd`,
* a two-window navigation flow: a term-selection window and a calculation
  window, connected by a validated forward swap (`generate_validated_swapper`,
  guarding on `validate_term`) and an unconditional backward swap
  (`generate_swapper`),
* an entry-driven calculation callback `calculate_cd_from_entry` that parses
  the principal text, looks the chosen term up in the `cd_options` catalog,
  and either fills the two result labels or, on `ValueError`, blanks them.

The GUI toolkit itself (window construction, layout, images, event loop) is
treated as an opaque presentation layer; the state the callbacks read and
write (window visibility, the selection variable, the entry text, the two
display labels, the option catalog) is modelled explicitly in `AppState`.
Real-number arithmetic models the program's floating-point arithmetic.
-/

namespace CDCalc

/-- Source constant `DAYS_PER_YEAR = 365.` (line 12). -/
noncomputable def DAYS_PER_YEAR : ℝ := 365

/-- Source constant `MONTHS_PER_YEAR = 12` (line 13), used in real division. -/
noncomputable def MONTHS_PER_YEAR : ℝ := 12

/-- Source constant `TERM_DEFAULT = '[Select a Term]'` (line 14): the sentinel
label meaning "no term selected yet". -/
def TERM_DEFAULT : String := "[Select a Term]"

/-- Source constant `EMPTY_DISPLAY = '$            '` (line 16): the blank
placeholder rendered on calculation failure. -/
def EMPTY_DISPLAY : String := "$            "

/-- Source function `calculate_cd(principal, rate, term)` (lines 92-105):
`total = principal * (1 + rate / DAYS_PER_YEAR) ** (term * DAYS_PER_YEAR / MONTHS_PER_YEAR)`,
`mean_return = (total - principal) / term`, returning `(mean_return, total)`.
The exponent is a non-integral real, so `**` is real exponentiation. -/
noncomputable def calculate_cd (principal rate term : ℝ) : ℝ × ℝ :=
  let total := principal * (1 + rate / DAYS_PER_YEAR) ^ (term * DAYS_PER_YEAR / MONTHS_PER_YEAR)
  let mean_return := (total - principal) / term
  (mean_return, total)

/-- Source data `cd_options` (lines 174-178): the fixed catalog mapping a term
label to the pair (annual rate as a fraction, term in months). -/
def cd_options : List (String × ℚ × ℚ) :=
  [("8-Month", (0.0512, 8)), ("15-Month", (0.0512, 15)), ("29-Month", (0.0405, 29))]

/-- Python dict subscript `d[k]` on an association list: first binding of the
key, `none` modelling the `KeyError` raised when the key is absent. -/
def dictLookup (opts : List (String × ℚ × ℚ)) (k : String) : Option (ℚ × ℚ) :=
  match opts with
  | [] => none
  | (k1, v) :: rest => if k1 = k then some v else dictLookup rest k

/-- The two program windows: `window_selection` (term selection, the root
window) and `window_calculation` (lines 181-186). -/
inductive WindowId
  | selection
  | calculation
deriving DecidableEq

/-- The mutable program state the callbacks touch: visibility of the two
windows, the `term_selection` string variable, the principal `tk.Entry` text,
the two result labels, and the options catalog passed to the calculation
callback. -/
structure AppState where
  selectionVisible : Bool
  calculationVisible : Bool
  term_selection : String
  entry_principal : String
  display_dividends : String
  display_total : String
  cd_options : List (String × ℚ × ℚ)
deriving DecidableEq

/-- `window.withdraw()`: hide the given window. -/
def withdraw : WindowId → AppState → AppState
  | .selection, st => { st with selectionVisible := false }
  | .calculation, st => { st with calculationVisible := false }

/-- `window.deiconify()`: show the given window. -/
def deiconify : WindowId → AppState → AppState
  | .selection, st => { st with selectionVisible := true }
  | .calculation, st => { st with calculationVisible := true }

/-- Source function `generate_swapper(open_window, closed_window)`
(lines 36-47): the generated callback withdraws the open window and
deiconifies the closed one. -/
def generate_swapper (openW closedW : WindowId) (st : AppState) : AppState :=
  deiconify closedW (withdraw openW st)

/-- Source function `validate_term(selection)` (lines 50-57):
`selection.get() != TERM_DEFAULT`. -/
def validate_term (selection : String) : Bool :=
  selection != TERM_DEFAULT

/-- Source function `generate_validated_swapper` (lines 60-77): the generated
callback swaps the windows only if the validation function accepts the
validation variable (here always bound to `term_selection`); otherwise it does
nothing. -/
def generate_validated_swapper (openW closedW : WindowId)
    (validation_fun : String → Bool) (st : AppState) : AppState :=
  if validation_fun st.term_selection then generate_swapper openW closedW st else st

/-- The Next button's command (lines 211-216): the spec's
`advance(current_term_label)`, reading the label from the state. -/
def advance : AppState → AppState :=
  generate_validated_swapper .selection .calculation validate_term

/-- The Back button's command (lines 263-266): the spec's `retreat()`. -/
def retreat : AppState → AppState :=
  generate_swapper .calculation .selection

/-- The spec's two-state navigation machine. -/
inductive NavState
  | Selection
  | Calculation
deriving DecidableEq

/-- The navigation state the window visibilities encode: the calculation
screen when `window_calculation` is shown, the selection screen otherwise. -/
def navState (st : AppState) : NavState :=
  if st.calculationVisible then .Calculation else .Selection

/-- The state as built at program start (lines 181-254): selection window
shown, calculation window withdrawn, selection variable set to the sentinel,
empty entry, both result labels blank. -/
def initialState : AppState :=
  { selectionVisible := true, calculationVisible := false,
    term_selection := TERM_DEFAULT, entry_principal := "",
    display_dividends := EMPTY_DISPLAY, display_total := EMPTY_DISPLAY,
    cd_options := cd_options }

/-- Python's `str.strip()` of surrounding whitespace, as `float(...)` applies
to its argument. -/
def pyTrim (cs : List Char) : List Char :=
  ((cs.dropWhile Char.isWhitespace).reverse.dropWhile Char.isWhitespace).reverse

/-- An optional leading sign: returns (is-negative, remaining characters). -/
def parseSign : List Char → Bool × List Char
  | '-' :: rest => (true, rest)
  | '+' :: rest => (false, rest)
  | cs => (false, cs)

/-- The natural number denoted by a (base-10) digit string. -/
def digitsToNat (ds : List Char) : ℕ :=
  ds.foldl (fun acc c => 10 * acc + (c.toNat - 48)) 0

/-- The optional exponent suffix of a float literal: empty input means
exponent 0; otherwise `e`/`E`, an optional sign and a nonempty digit run
consuming the entire rest; `none` on any other input. -/
def parseExpPart (cs : List Char) : Option ℤ :=
  if h : cs = [] then some 0
  else
    if cs.head h = 'e' ∨ cs.head h = 'E' then
      let eneg := (parseSign cs.tail).1
      let rest2 := (parseSign cs.tail).2
      if rest2.takeWhile Char.isDigit = [] ∨ rest2.dropWhile Char.isDigit ≠ [] then none
      else if eneg then some (-(digitsToNat (rest2.takeWhile Char.isDigit) : ℤ))
      else some ((digitsToNat (rest2.takeWhile Char.isDigit) : ℤ))
    else none

/-- Modelled from the spec: Python's builtin `float(raw_text)` conversion,
the body of the spec operation `parse_principal` — the builtin itself is not
part of the repository. It accepts an optional sign and decimal digits with
an optional fractional part and an optional exponent, surrounded by optional
whitespace, and returns the exact value as a rational; every other string is
a `ParseError`, modelled as `none` (the builtin's `ValueError`). The special
spellings `inf`/`infinity`/`nan` and underscore digit separators, which the
builtin also accepts, are outside the scope of this model. -/
def parse_principal (s : String) : Option ℚ :=
  let cs := pyTrim s.data
  let neg := (parseSign cs).1
  let cs1 := (parseSign cs).2
  let ip := cs1.takeWhile Char.isDigit
  let rest1 := cs1.dropWhile Char.isDigit
  if rest1.head? = some '.' then
    let fp := rest1.tail.takeWhile Char.isDigit
    let rest3 := rest1.tail.dropWhile Char.isDigit
    if ip = [] ∧ fp = [] then none
    else
      (parseExpPart rest3).map (fun e =>
        let m : ℚ := (digitsToNat ip : ℚ) + (digitsToNat fp : ℚ) / 10 ^ fp.length
        (if neg then -m else m) * 10 ^ e)
  else
    if ip = [] then none
    else
      (parseExpPart rest1).map (fun e =>
        (if neg then -(digitsToNat ip : ℚ) else (digitsToNat ip : ℚ)) * 10 ^ e)

/-- Modelled from the spec: "a syntactically valid decimal number" — the
exponent-suffix fragment. Written as a recogniser, independent of the value
computation. -/
def validExpPart (cs : List Char) : Bool :=
  if h : cs = [] then true
  else
    if cs.head h = 'e' ∨ cs.head h = 'E' then
      let rest2 := (parseSign cs.tail).2
      if rest2.takeWhile Char.isDigit = [] ∨ rest2.dropWhile Char.isDigit ≠ [] then false
      else true
    else false

/-- Modelled from the spec: "a syntactically valid decimal number" — an
optional sign, then either a nonempty digit run, optionally followed by a
point and a further digit run, or a point followed by a nonempty digit run,
then an optional exponent, surrounded by optional whitespace. -/
def is_valid_decimal (s : String) : Bool :=
  let cs := pyTrim s.data
  let cs1 := (parseSign cs).2
  let ip := cs1.takeWhile Char.isDigit
  let rest1 := cs1.dropWhile Char.isDigit
  if rest1.head? = some '.' then
    let fp := rest1.tail.takeWhile Char.isDigit
    if ip = [] ∧ fp = [] then false
    else validExpPart (rest1.tail.dropWhile Char.isDigit)
  else
    if ip = [] then false
    else validExpPart rest1

/-- The Python exceptions the `try` body of `calculate_cd_from_entry` can
raise: `ValueError` from `float(...)` on an unparsable principal, `KeyError`
from `cd_options[selection]` on a label absent from the catalog. -/
inductive PyExc
  | valueError
  | keyError
deriving DecidableEq

/-- The `try` body of `calculate_cd_from_entry` (lines 122-131): parse the
principal (`ValueError` on failure), look the selection up in the catalog
(`KeyError` on failure), run `calculate_cd` and write the two result labels
as `f'${value:.2f}'`. The two-decimal float formatting is presentation-layer
floating-point rendering, abstracted as the parameter `fmt2dp`. -/
noncomputable def calculate_cd_body (fmt2dp : ℝ → String) (st : AppState) :
    Except PyExc AppState :=
  match parse_principal st.entry_principal with
  | none => .error .valueError
  | some principal =>
    match dictLookup st.cd_options st.term_selection with
    | none => .error .keyError
    | some (rate, term) =>
      let mt := calculate_cd (principal : ℝ) (rate : ℝ) (term : ℝ)
      .ok { st with display_dividends := "$" ++ fmt2dp mt.1,
                    display_total := "$" ++ fmt2dp mt.2 }

/-- Source callback `calculate_cd_from_entry` (lines 122-137): the `try` body
wrapped in `except ValueError`, which blanks both result labels. Any other
exception — in particular the `KeyError` of an unknown term — is not caught
and propagates out of the callback (modelled as an `.error` result). -/
noncomputable def calculate_cd_from_entry (fmt2dp : ℝ → String) (st : AppState) :
    Except PyExc AppState :=
  match calculate_cd_body fmt2dp st with
  | .error .valueError =>
    .ok { st with display_dividends := EMPTY_DISPLAY, display_total := EMPTY_DISPLAY }
  | r => r

/-- Modelled from the spec: the two-decimal rendering of the real value `x`
is the decimal `q` — `x` lies within half a cent of `q` (the exact tie, which
never arises below, is resolved upward here). -/
def renders2dp (x : ℝ) (q : ℚ) : Prop :=
  (q : ℝ) - 1/200 ≤ x ∧ x < (q : ℝ) + 1/200

/-- The initial state with the 8-month term chosen. -/
def st8Month : AppState := { initialState with term_selection := "8-Month" }

/-- The initial state on the calculation screen with the 8-month term chosen. -/
def stCalcScreen : AppState :=
  { st8Month with selectionVisible := false, calculationVisible := true }

/-- A state whose term label is absent from the catalog but whose principal
entry parses. -/
def stBadTerm : AppState :=
  { initialState with term_selection := "7-Month", entry_principal := "100" }

/-- A state whose principal entry does not parse as a number. -/
def stBadEntry : AppState := { initialState with entry_principal := "abc" }

/-- A state with an unparsable principal entry and previously displayed
results. -/
def stShownResult : AppState :=
  { stBadEntry with display_dividends := "$4.34", display_total := "$1034.72" }

theorem isSome_parseExpPart (cs : List Char) : (parseExpPart cs).isSome = validExpPart cs := by
  unfold parseExpPart validExpPart
  dsimp only
  split
  · rfl
  · split
    · split
      · rfl
      · split <;> rfl
    · rfl

theorem parse_isSome_iff_valid (s : String) :
    (parse_principal s).isSome = is_valid_decimal s := by
  unfold parse_principal is_valid_decimal
  dsimp only
  split <;> split <;> simp_all [isSome_parseExpPart, Option.isSome_map]

/-- C1: for every `principal > 0`, `annual_rate >= 0` and `term_months > 0`,
`calculate_cd` returns exactly `total = principal * (1 + annual_rate / 365) ^
(term_months * 365 / 12)` and `mean_monthly_return = (total - principal) /
term_months`, with no clamping or rounding applied inside. -/
theorem C1_calculate_cd_formula (p r t : ℝ) (_hp : 0 < p) (_hr : 0 ≤ r) (_ht : 0 < t) :
    (calculate_cd p r t).2 = p * (1 + r / 365) ^ (t * 365 / 12) ∧
    (calculate_cd p r t).1 = ((calculate_cd p r t).2 - p) / t :=
  ⟨rfl, rfl⟩

theorem C1_calculate_cd_formula_witness :
    (calculate_cd 1 0 1).2 = 1 * (1 + 0 / 365) ^ ((1 : ℝ) * 365 / 12) ∧
    (calculate_cd 1 0 1).1 = ((calculate_cd 1 0 1).2 - 1) / 1 :=
  C1_calculate_cd_formula 1 0 1 zero_lt_one le_rfl zero_lt_one

/-- C9: `calculate_cd` is deterministic — two calls with equal inputs return
equal outputs; in the embedding the function reads no state beyond the fixed
module constants. -/
theorem C9_deterministic (p r t p2 r2 t2 : ℝ) (hp : p = p2) (hr : r = r2) (ht : t = t2) :
    calculate_cd p r t = calculate_cd p2 r2 t2 := by
  rw [hp, hr, ht]

theorem C9_deterministic_witness :
    calculate_cd 1000 0.0512 8 = calculate_cd 1000 0.0512 8 :=
  C9_deterministic 1000 0.0512 8 1000 0.0512 8 rfl rfl rfl

/-- C5: for `principal > 0`, `annual_rate ∈ [0,1)` and `term_months > 0`,
the returned total strictly exceeds the principal whenever `annual_rate > 0`. -/
theorem C5_total_gt_principal (p r t : ℝ) (hp : 0 < p) (_hr0 : 0 ≤ r) (_hr1 : r < 1)
    (ht : 0 < t) (hrpos : 0 < r) : p < (calculate_cd p r t).2 := by
  have h2 : (calculate_cd p r t).2
      = p * (1 + r / DAYS_PER_YEAR) ^ (t * DAYS_PER_YEAR / MONTHS_PER_YEAR) := rfl
  rw [h2, DAYS_PER_YEAR, MONTHS_PER_YEAR]
  have hx : (0 : ℝ) < 1 + r / 365 := by positivity
  have h1 : 1 < (1 + r / 365) ^ (t * 365 / 12) := by
    rw [Real.one_lt_rpow_iff_of_pos hx]
    left
    constructor
    · linarith
    · positivity
  calc p = p * 1 := (mul_one p).symm
    _ < p * (1 + r / 365) ^ (t * 365 / 12) := (mul_lt_mul_left hp).2 h1

theorem C5_total_gt_principal_witness : (1 : ℝ) < (calculate_cd 1 (1/2) 1).2 :=
  C5_total_gt_principal 1 (1/2) 1 zero_lt_one one_half_pos.le one_half_lt_one
    zero_lt_one one_half_pos

/-- C3: `advance` (the validated swap bound to the Next button) refuses the
transition and is a side-effect-free no-op — hence idempotent — when the
selection equals the sentinel `TERM_DEFAULT`, and moves the navigation state
to `Calculation` for every other label. -/
theorem C3_advance_guarded (st : AppState) :
    (st.term_selection = TERM_DEFAULT →
      advance st = st ∧
      (navState st = NavState.Selection → navState (advance st) = NavState.Selection) ∧
      advance (advance st) = advance st) ∧
    (st.term_selection ≠ TERM_DEFAULT → navState (advance st) = NavState.Calculation) := by
  constructor
  · intro h
    have hadv : advance st = st := by
      simp [advance, generate_validated_swapper, validate_term, h]
    exact ⟨hadv, fun hs => by rw [hadv]; exact hs, by simp only [hadv]⟩
  · intro h
    have hval : validate_term st.term_selection = true := by
      simp [validate_term, h]
    simp [advance, generate_validated_swapper, hval, generate_swapper, withdraw,
      deiconify, navState]

theorem C3_advance_guarded_witness :
    advance initialState = initialState ∧
    navState (advance st8Month) = NavState.Calculation :=
  ⟨((C3_advance_guarded initialState).1 rfl).1,
   (C3_advance_guarded st8Month).2 (by decide)⟩

/-- C7: `retreat` (the unconditional swap bound to the Back button) takes the
navigation state from `Calculation` to `Selection`, and a repeated `retreat`
is a no-op that does not error. -/
theorem C7_retreat_unconditional (st : AppState) :
    (navState st = NavState.Calculation → navState (retreat st) = NavState.Selection) ∧
    retreat (retreat st) = retreat st :=
  ⟨fun _ => rfl, rfl⟩

theorem C7_retreat_unconditional_witness :
    navState (retreat stCalcScreen) = NavState.Selection :=
  (C7_retreat_unconditional stCalcScreen).1 (by decide)

/-- C8: from the selection screen with a valid (non-sentinel) label,
`retreat` after `advance` restores the state exactly — in particular the
navigation state is `Selection` again and the rate table and the previously
displayed results are unchanged (the catalog is never mutated). -/
theorem C8_roundtrip (st : AppState) (h : st.term_selection ≠ TERM_DEFAULT)
    (h1 : st.selectionVisible = true) (h2 : st.calculationVisible = false) :
    retreat (advance st) = st ∧
    navState (retreat (advance st)) = NavState.Selection ∧
    (retreat (advance st)).cd_options = st.cd_options ∧
    (retreat (advance st)).display_dividends = st.display_dividends ∧
    (retreat (advance st)).display_total = st.display_total := by
  have hval : validate_term st.term_selection = true := by
    simp [validate_term, h]
  obtain ⟨sv, cv, ts, ep, dd, dt, co⟩ := st
  simp only at h1 h2
  subst h1
  subst h2
  have hmain : retreat (advance (AppState.mk true false ts ep dd dt co))
      = AppState.mk true false ts ep dd dt co := by
    simp [advance, retreat, generate_validated_swapper, hval, generate_swapper,
      withdraw, deiconify]
  exact ⟨hmain, by rw [hmain]; rfl, by rw [hmain], by rw [hmain], by rw [hmain]⟩

theorem C8_roundtrip_witness :
    retreat (advance st8Month) = st8Month ∧
    navState (retreat (advance st8Month)) = NavState.Selection ∧
    (retreat (advance st8Month)).cd_options = st8Month.cd_options ∧
    (retreat (advance st8Month)).display_dividends = st8Month.display_dividends ∧
    (retreat (advance st8Month)).display_total = st8Month.display_total :=
  C8_roundtrip st8Month (by decide) rfl rfl

/-- C2 counterexample: a calculation request whose principal parses but whose
term label is absent from the catalog makes the `try` body raise `KeyError`
(the spec's `UnknownTerm`), and the `except ValueError` handler does not
catch it: the error propagates past the integration point instead of being
rendered as the blank placeholder. -/
theorem C2_unknown_term_propagates :
    calculate_cd_from_entry (fun _ => "") stBadTerm = .error .keyError := by
  with_unfolding_all rfl

/-- C2 amended: of the three error kinds, only `ParseError` (`ValueError`
from `float(...)`) is caught by the integration point, which then renders the
blank placeholder in both displays; an `UnknownTerm` (`KeyError`) propagates
past the integration point, and no `InvalidDomainValue` error is ever raised
(the code performs no domain check). -/
theorem C2_error_handling_amended (fmt2dp : ℝ → String) (st : AppState) :
    (parse_principal st.entry_principal = none →
      calculate_cd_from_entry fmt2dp st =
        .ok { st with display_dividends := EMPTY_DISPLAY, display_total := EMPTY_DISPLAY }) ∧
    (∀ q : ℚ, parse_principal st.entry_principal = some q →
      dictLookup st.cd_options st.term_selection = none →
      calculate_cd_from_entry fmt2dp st = .error PyExc.keyError) := by
  constructor
  · intro h
    simp only [calculate_cd_from_entry, calculate_cd_body, h]
  · intro q hq hlk
    simp only [calculate_cd_from_entry, calculate_cd_body, hq, hlk]

theorem C2_error_handling_amended_witness :
    calculate_cd_from_entry (fun _ => "") stBadEntry
      = .ok { stBadEntry with display_dividends := EMPTY_DISPLAY, display_total := EMPTY_DISPLAY } ∧
    calculate_cd_from_entry (fun _ => "") stBadTerm = .error PyExc.keyError :=
  ⟨(C2_error_handling_amended (fun _ => "") stBadEntry).1 rfl,
   (C2_error_handling_amended (fun _ => "") stBadTerm).2 100 (by with_unfolding_all rfl) rfl⟩

/-- C10: whenever the handled error branch (`except ValueError`) is taken,
both result labels are overwritten with the fixed blank placeholder, so a
previously displayed non-blank result never survives the error path. -/
theorem C10_error_branch_blanks (fmt2dp : ℝ → String) (st : AppState)
    (h : parse_principal st.entry_principal = none) :
    calculate_cd_from_entry fmt2dp st =
      .ok { st with display_dividends := EMPTY_DISPLAY, display_total := EMPTY_DISPLAY } ∧
    (st.display_dividends ≠ EMPTY_DISPLAY ∨ st.display_total ≠ EMPTY_DISPLAY →
      Except.ok st ≠ calculate_cd_from_entry fmt2dp st) := by
  have hmain : calculate_cd_from_entry fmt2dp st =
      .ok { st with display_dividends := EMPTY_DISPLAY, display_total := EMPTY_DISPLAY } := by
    simp only [calculate_cd_from_entry, calculate_cd_body, h]
  refine ⟨hmain, fun hne hcon => ?_⟩
  rw [hmain] at hcon
  injection hcon with h3
  rcases hne with hne | hne
  · exact hne (congrArg AppState.display_dividends h3)
  · exact hne (congrArg AppState.display_total h3)

theorem C10_error_branch_blanks_witness :
    calculate_cd_from_entry (fun _ => "") stShownResult
      = .ok { stShownResult with display_dividends := EMPTY_DISPLAY, display_total := EMPTY_DISPLAY } ∧
    Except.ok stShownResult ≠ calculate_cd_from_entry (fun _ => "") stShownResult :=
  ⟨(C10_error_branch_blanks (fun _ => "") stShownResult rfl).1,
   (C10_error_branch_blanks (fun _ => "") stShownResult rfl).2 (Or.inl (by decide))⟩

/-- C4: `parse_principal` is total on strings and never raises; it succeeds
exactly on the syntactically valid decimal numbers (as recognised by the
independent grammar checker `is_valid_decimal`), and in particular
`parse_principal "abc"` is a `ParseError` while `parse_principal "100.50"`
is the number 100.5. -/
theorem C4_parse_principal_contract :
    (∀ s : String, (parse_principal s).isSome = is_valid_decimal s) ∧
    parse_principal "abc" = none ∧
    parse_principal "100.50" = some (100.5 : ℚ) :=
  ⟨parse_isSome_iff_valid, rfl, by with_unfolding_all rfl⟩

set_option maxRecDepth 4000

set_option exponentiation.threshold 800

theorem cd_total_eq :
    (calculate_cd 1000 0.0512 8).2 = 1000 * ((228157 : ℝ)/228125) ^ ((730 : ℝ)/3) := by
  rw [calculate_cd]
  rw [show ((1 : ℝ) + 0.0512 / DAYS_PER_YEAR) = 228157/228125 by rw [DAYS_PER_YEAR]; norm_num]
  rw [show ((8 : ℝ) * DAYS_PER_YEAR / MONTHS_PER_YEAR) = 730/3 by
    rw [DAYS_PER_YEAR, MONTHS_PER_YEAR]; norm_num]

theorem cd_T_cubed :
    (((228157 : ℝ)/228125) ^ ((730 : ℝ)/3)) ^ (3 : ℕ) = ((228157 : ℝ)/228125) ^ (730 : ℕ) := by
  rw [← Real.rpow_natCast (((228157 : ℝ)/228125) ^ ((730 : ℝ)/3)) 3,
    ← Real.rpow_mul (by positivity),
    show ((730 : ℝ)/3 * ((3 : ℕ) : ℝ)) = ((730 : ℕ) : ℝ) by push_cast; ring,
    Real.rpow_natCast]

theorem cd_pow_lower : ((1034715 : ℝ)/1000000)^(3 : ℕ) ≤ ((228157 : ℝ)/228125)^(730 : ℕ) := by
  rw [div_pow, div_pow, div_le_div_iff₀ (by positivity) (by positivity)]
  exact_mod_cast (show (1034715 : ℕ)^3 * 228125^730 ≤ 228157^730 * 1000000^3 by decide)

theorem cd_pow_upper : ((228157 : ℝ)/228125)^(730 : ℕ) < ((1034725 : ℝ)/1000000)^(3 : ℕ) := by
  rw [div_pow, div_pow, div_lt_div_iff₀ (by positivity) (by positivity)]
  exact_mod_cast (show (228157 : ℕ)^730 * 1000000^3 < 1034725^3 * 228125^730 by decide)

theorem cd_T_lower : (1034715 : ℝ)/1000000 ≤ ((228157 : ℝ)/228125) ^ ((730 : ℝ)/3) := by
  refine le_of_pow_le_pow_left₀ (three_ne_zero) (Real.rpow_nonneg (by positivity) _) ?_
  rw [cd_T_cubed]
  exact cd_pow_lower

theorem cd_T_upper : ((228157 : ℝ)/228125) ^ ((730 : ℝ)/3) < (1034725 : ℝ)/1000000 := by
  refine lt_of_pow_lt_pow_left₀ 3 (by norm_num) ?_
  rw [cd_T_cubed]
  exact cd_pow_upper

theorem cd_total_bounds :
    (1034715 : ℝ)/1000 ≤ (calculate_cd 1000 0.0512 8).2 ∧
    (calculate_cd 1000 0.0512 8).2 < (1034725 : ℝ)/1000 := by
  rw [cd_total_eq]
  have hl := cd_T_lower
  have hu := cd_T_upper
  constructor <;> linarith

/-- C6 counterexample: the spec example `compute(1000, 0.0512, 8)` does not
render to (6.83, 1054.64) — the computed total lies strictly below 1034.725,
far from the 1054.635 that a 1054.64 rendering would require. -/
theorem C6_spec_example_refuted :
    ¬ (renders2dp (calculate_cd 1000 0.0512 8).1 (683/100) ∧
       renders2dp (calculate_cd 1000 0.0512 8).2 (105464/100)) := by
  intro h
  have hlow := h.2.1
  have hub := cd_total_bounds.2
  have hc : (((105464 : ℚ)/100 : ℚ) : ℝ) = (105464 : ℝ)/100 := by push_cast; ring
  rw [hc] at hlow
  linarith

/-- C6 amended: `compute(1000, 0.0512, 8)` renders, to two decimals, as mean
monthly return 4.34 and total 1034.72. -/
theorem C6_rendering_amended :
    renders2dp (calculate_cd 1000 0.0512 8).1 (434/100) ∧
    renders2dp (calculate_cd 1000 0.0512 8).2 (103472/100) := by
  have hl := cd_total_bounds.1
  have hu := cd_total_bounds.2
  have hm : (calculate_cd 1000 0.0512 8).1 = ((calculate_cd 1000 0.0512 8).2 - 1000) / 8 := rfl
  refine ⟨⟨?_, ?_⟩, ?_, ?_⟩
  · rw [hm]; push_cast; linarith
  · rw [hm]; push_cast; linarith
  · push_cast; linarith
  · push_cast; linarith

end CDCalc
